import Mathlib

/-!
Shallow embedding of the Flappy-Birb game engine:
the data model of src/type.ts, the action set and reducer of src/state.ts,
the collision resolution of src/collision.ts and the CSV parsing of
src/main.ts.  JavaScript numbers are modelled as rationals, optional fields
as Option, NaN as the none case of Option, and the JavaScript remainder
operator as jsMod (truncated division).
-/

namespace Flappy

attribute [local semireducible] Rat.add Rat.sub Rat.mul Rat.inv

/-- Canvas width from type.ts (Viewport). -/
def Viewport.CANVAS_WIDTH : ℚ := 600

/-- Canvas height from type.ts (Viewport). -/
def Viewport.CANVAS_HEIGHT : ℚ := 400

/-- Birb sprite width from type.ts (Birb). -/
def Birb.WIDTH : ℚ := 42

/-- Birb sprite height from type.ts (Birb). -/
def Birb.HEIGHT : ℚ := 30

/-- Starting number of lives from type.ts (Birb). -/
def Birb.BIRB_LIVES : ℚ := 3

/-- Pipe width from type.ts (Constants). -/
def Constants.PIPE_WIDTH : ℚ := 60

/-- Tick period in milliseconds from type.ts (Constants). -/
def Constants.TICK_RATE_MS : ℚ := 30

/-- Jump impulse from type.ts (Constants). -/
def Constants.JUMP_VELOCITY : ℚ := 10

/-- Gravity acceleration per tick from type.ts (Constants). -/
def Constants.GRAVITY : ℚ := 3 / 2

/-- Terminal fall velocity from type.ts (Constants). -/
def Constants.MAX_FALL_RATE : ℚ := 18

/-- Invincibility window length from type.ts (Constants). -/
def Constants.INVINCIBLE_MS : ℚ := 1000

/-- Minimum bounce magnitude from type.ts (Constants). -/
def Constants.BOUNCE_MIN : ℚ := 6

/-- Maximum bounce magnitude from type.ts (Constants). -/
def Constants.BOUNCE_MAX : ℚ := 12

/-- Pipe scroll speed in pixels per millisecond from type.ts (Constants). -/
def Constants.PIPE_SPEED_PX_PER_MS : ℚ := 12 / 100

/-- Delay between the win being recorded and the game ending, from type.ts. -/
def Constants.WIN_DELAY_MS : ℚ := 2000

/-- A rectangle used for collision detection (type.ts Rect). -/
structure Rect where
  x : ℚ
  y : ℚ
  w : ℚ
  h : ℚ
  deriving DecidableEq

/-- The controlled body (type.ts Body). -/
structure Body where
  id : String
  birbX : ℚ
  birbY : ℚ
  birbVelocity : ℚ
  birbLive : ℚ
  createTime : ℚ
  deriving DecidableEq

/-- An obstacle with a vertical gap (type.ts Pipe). -/
structure Pipe where
  id : String
  x : ℚ
  gapY : ℚ
  gapH : ℚ
  createTime : ℚ
  passed : Bool
  deriving DecidableEq

/-- The immutable game state (type.ts State). -/
structure State where
  gameEnd : Bool
  time : ℚ
  pipes : List Pipe
  exit : List ℚ
  birb : Body
  objCount : ℕ
  score : ℚ
  invincibleUntil : Option ℚ
  won : Option Bool
  winAt : Option ℚ
  deriving DecidableEq

/-- Truncation of a rational toward zero, mirroring how the JavaScript
remainder operator truncates the quotient. -/
def ratTrunc (q : ℚ) : ℤ :=
  if 0 ≤ q.num then ((q.num.natAbs / q.den : ℕ) : ℤ)
  else -((q.num.natAbs / q.den : ℕ) : ℤ)

/-- The JavaScript remainder operator on numbers: a - b * trunc(a / b). -/
def jsMod (a b : ℚ) : ℚ := a - b * (ratTrunc (a / b) : ℚ)

/-- Rectangle overlap test from collision.ts (overlapAABB): strict
inequalities on both axes. -/
def overlapAABB (a b : Rect) : Bool :=
  decide (a.x < b.x + b.w) && decide (a.x + a.w > b.x) &&
    decide (a.y < b.y + b.h) && decide (a.y + a.h > b.y)

/-- The body boxed into a rectangle centered at its position (collision.ts
birdRect). -/
def birdRect (s : State) : Rect :=
  ⟨s.birb.birbX - Birb.WIDTH / 2, s.birb.birbY - Birb.HEIGHT / 2,
    Birb.WIDTH, Birb.HEIGHT⟩

/-- The two rectangles of a pipe: top rectangle above the gap and bottom
rectangle below the gap (collision.ts pipeRects). -/
def pipeRects (p : Pipe) : Rect × Rect :=
  (⟨p.x, 0, Constants.PIPE_WIDTH, max 0 (p.gapY - p.gapH / 2)⟩,
   ⟨p.x, p.gapY + p.gapH / 2, Constants.PIPE_WIDTH,
     max 0 (Viewport.CANVAS_HEIGHT - (p.gapY + p.gapH / 2))⟩)

/-- The invincibility test from collision.ts line 55: invincibleUntil is
present and time is strictly before it. -/
def isInvincible (s : State) : Bool :=
  match s.invincibleUntil with
  | none => false
  | some u => decide (s.time < u)

/-- Top boundary hit: the top edge of the body rectangle is at or above 0. -/
def hitTopBound (s : State) : Bool := decide ((birdRect s).y ≤ 0)

/-- Bottom boundary hit: the bottom edge of the body rectangle is at or
below the canvas height. -/
def hitBottomBound (s : State) : Bool :=
  decide ((birdRect s).y + (birdRect s).h ≥ Viewport.CANVAS_HEIGHT)

/-- Overlap with the top rectangle of some pipe. -/
def hitTopPipe (s : State) : Bool :=
  s.pipes.any fun p => overlapAABB (birdRect s) (pipeRects p).1

/-- Overlap with the bottom rectangle of some pipe. -/
def hitBottomPipe (s : State) : Bool :=
  s.pipes.any fun p => overlapAABB (birdRect s) (pipeRects p).2

/-- Any of the four hit conditions of collision.ts. -/
def anyHit (s : State) : Bool :=
  hitTopBound s || hitBottomBound s || hitTopPipe s || hitBottomPipe s

/-- The bounce magnitude of collision.ts lines 83 to 85:
BOUNCE_MIN + ((time % 1000) / 1000) * (BOUNCE_MAX - BOUNCE_MIN). -/
def bounceMagnitude (t : ℚ) : ℚ :=
  Constants.BOUNCE_MIN +
    jsMod t 1000 / 1000 * (Constants.BOUNCE_MAX - Constants.BOUNCE_MIN)

/-- The bounce velocity: downward (positive) on a top side hit, upward
(negative) otherwise (collision.ts lines 86 to 87). -/
def bounceVy (s : State) : ℚ :=
  if hitTopBound s || hitTopPipe s then bounceMagnitude s.time
  else -(bounceMagnitude s.time)

/-- Collision resolution from collision.ts (handleCollisions).  The local
binding lives = max(0, birbLive - 1) of the source is inlined at each of
its use sites, and dead = (lives === 0) is inlined as the corresponding
test. -/
def handleCollisions (s : State) : State :=
  if isInvincible s then s
  else if !anyHit s then s
  else if max 0 (s.birb.birbLive - 1) = 0 then
    { s with
      birb := { s.birb with birbLive := 0, birbVelocity := 0 },
      gameEnd := true, won := some false, winAt := none }
  else
    { s with
      birb := { s.birb with
        birbLive := max 0 (s.birb.birbLive - 1),
        birbVelocity := bounceVy s,
        birbY := max (Birb.HEIGHT / 2)
          (min (Viewport.CANVAS_HEIGHT - Birb.HEIGHT / 2)
            (s.birb.birbY + bounceVy s)) },
      invincibleUntil := some (s.time + Constants.INVINCIBLE_MS),
      gameEnd := s.gameEnd || decide (max 0 (s.birb.birbLive - 1) = 0),
      won := if max 0 (s.birb.birbLive - 1) = 0 then some false else s.won,
      winAt := if max 0 (s.birb.birbLive - 1) = 0 then none else s.winAt }

/-- Tick action from state.ts: bump time forward by dt milliseconds. -/
def tickApply (dt : ℚ) (s : State) : State := { s with time := s.time + dt }

/-- Jump action from state.ts: set an upward velocity. -/
def jumpApply (velocity : ℚ) (s : State) : State :=
  { s with birb := { s.birb with birbVelocity := -velocity } }

/-- Gravity action from state.ts: add gravity to the velocity, capped at
MAX_FALL_RATE, and move the body by the new velocity. -/
def gravityApply (s : State) : State :=
  let fall_rate := min (s.birb.birbVelocity + Constants.GRAVITY)
    Constants.MAX_FALL_RATE
  { s with birb := { s.birb with
      birbVelocity := fall_rate,
      birbY := s.birb.birbY + fall_rate } }

/-- CreatePipe action from state.ts: append a pipe at the right edge of the
canvas and increment the object counter. -/
def createPipeApply (gapY gapH : ℚ) (s : State) : State :=
  { s with
    objCount := s.objCount + 1,
    pipes := s.pipes ++ [{ id := "pipe-" ++ toString (s.objCount + 1),
                           x := Viewport.CANVAS_WIDTH,
                           gapY := gapY, gapH := gapH,
                           createTime := s.time, passed := false }] }

/-- Shift one pipe left by dx (the map step of TickPipes). -/
def movePipe (dx : ℚ) (p : Pipe) : Pipe := { p with x := p.x - dx }

/-- The moved pipes that are still on screen (the map and filter steps of
TickPipes). -/
def keptPipes (s : State) (dx : ℚ) : List Pipe :=
  (s.pipes.map (movePipe dx)).filter fun p =>
    decide (p.x + Constants.PIPE_WIDTH > 0)

/-- Test that a vertical position lies strictly inside the gap of a pipe
(TickPipes insideGap). -/
def insideGap (py : ℚ) (p : Pipe) : Bool :=
  decide (py > p.gapY - p.gapH / 2) && decide (py < p.gapY + p.gapH / 2)

/-- Scoring is allowed when no invincibility window is active (TickPipes
okToScore). -/
def okToScore (s : State) : Bool :=
  match s.invincibleUntil with
  | none => true
  | some u => decide (s.time ≥ u)

/-- Edge crossing detection on a moved pipe: the right edge was at or past
the body x before the shift and is strictly past it after the shift. -/
def crossedNow (dx birdX : ℚ) (p : Pipe) : Bool :=
  decide (p.x + Constants.PIPE_WIDTH + dx ≥ birdX) &&
    decide (p.x + Constants.PIPE_WIDTH < birdX)

/-- The scoring condition of TickPipes for one moved pipe: not yet passed,
crossing now, body inside the gap, and scoring allowed. -/
def scoredNowP (dx birdX birdY : ℚ) (ok : Bool) (p : Pipe) : Bool :=
  !p.passed && crossedNow dx birdX p && insideGap birdY p && ok

/-- The update applied to one moved pipe by the scoring reduce of
TickPipes: mark passed if it scores now, otherwise leave it unchanged. -/
def scoreStep (dx birdX birdY : ℚ) (ok : Bool) (p : Pipe) : Pipe :=
  if scoredNowP dx birdX birdY ok p then { p with passed := true } else p

/-- One step of the scoring reduce of TickPipes: extend the rebuilt pipe
list and add one point when the pipe scores now. -/
def scoreAccum (dx birdX birdY : ℚ) (ok : Bool) (acc : List Pipe × ℚ)
    (p : Pipe) : List Pipe × ℚ :=
  (acc.1 ++ [scoreStep dx birdX birdY ok p],
   acc.2 + if scoredNowP dx birdX birdY ok p then (1 : ℚ) else 0)

/-- The scoring reduce of TickPipes, started from the empty list and zero
gained points. -/
def scoreFold (dx birdX birdY : ℚ) (ok : Bool) (l : List Pipe) :
    List Pipe × ℚ :=
  l.foldl (scoreAccum dx birdX birdY ok) ([], 0)

/-- Horizontal shift of a TickPipes application:
PIPE_SPEED_PX_PER_MS * dtMs. -/
def pipeDx (dtMs : ℚ) : ℚ := Constants.PIPE_SPEED_PX_PER_MS * dtMs

/-- The pipe list produced by one TickPipes application. -/
def updatedPipes (s : State) (dtMs : ℚ) : List Pipe :=
  (scoreFold (pipeDx dtMs) s.birb.birbX s.birb.birbY (okToScore s)
    (keptPipes s (pipeDx dtMs))).1

/-- The points gained in one TickPipes application. -/
def gainedScore (s : State) (dtMs : ℚ) : ℚ :=
  (scoreFold (pipeDx dtMs) s.birb.birbX s.birb.birbY (okToScore s)
    (keptPipes s (pipeDx dtMs))).2

/-- A pipe is resolved when it is passed or its right edge is strictly
behind the given leading edge (TickPipes resolved). -/
def resolvedB (frontX : ℚ) (p : Pipe) : Bool :=
  p.passed || decide (p.x + Constants.PIPE_WIDTH < frontX)

/-- The end-after-win test of TickPipes: winAt is set and at least
WIN_DELAY_MS have elapsed since it. -/
def winDelayElapsed (s : State) : Bool :=
  match s.winAt with
  | none => false
  | some w => decide (s.time - w ≥ Constants.WIN_DELAY_MS)

/-- The win start test of TickPipes: the updated pipe list is non empty,
every updated pipe is resolved, and no win has been recorded yet. -/
def winStartedB (s : State) (dtMs : ℚ) : Bool :=
  (decide (0 < (updatedPipes s dtMs).length) &&
      (updatedPipes s dtMs).all
        (resolvedB (s.birb.birbX + Birb.WIDTH / 2))) &&
    s.winAt.isNone

/-- TickPipes action from state.ts: scroll, drop offscreen pipes, score by
edge crossing, record the win once, and end the game after the win delay. -/
def tickPipesApply (dtMs : ℚ) (s : State) : State :=
  { s with
    pipes := updatedPipes s dtMs,
    score := s.score + gainedScore s dtMs,
    winAt := if winStartedB s dtMs then some s.time else s.winAt,
    won := if winStartedB s dtMs then some true else s.won,
    gameEnd := s.gameEnd || winDelayElapsed s }

/-- The closed set of actions of state.ts. -/
inductive Action where
  | tick (dt : ℚ)
  | jump (velocity : ℚ)
  | gravity
  | createPipe (gapY gapH : ℚ)
  | tickPipes (dtMs : ℚ)
  deriving DecidableEq

/-- Dispatch of the apply method over the action variants. -/
def Action.apply : Action → State → State
  | Action.tick dt, s => tickApply dt s
  | Action.jump v, s => jumpApply v s
  | Action.gravity, s => gravityApply s
  | Action.createPipe gY gH, s => createPipeApply gY gH s
  | Action.tickPipes dt, s => tickPipesApply dt s

/-- The reducer of state.ts: apply the action, then always run collision
resolution on the result. -/
def reduceState (s : State) (a : Action) : State :=
  handleCollisions (a.apply s)

/-- The body constructor from state.ts (createBirb); the source gives
lives the default value Birb.BIRB_LIVES. -/
def createBirb (id : String) (x y createdAt lives : ℚ) : Body :=
  { id := id, birbX := x, birbY := y, birbVelocity := 0,
    birbLive := lives, createTime := createdAt }

/-- The initial state factory from state.ts. -/
def initialState (t0 canvasW canvasH : ℚ) : State :=
  { gameEnd := false, time := t0, pipes := [], exit := [], objCount := 0,
    score := 0,
    birb := createBirb "birb" (canvasW * (3 / 10)) (canvasH / 2) t0
      Birb.BIRB_LIVES,
    invincibleUntil := none, won := none, winAt := none }

/-- The action instances that the orchestration layer of main.ts actually
constructs: Tick and TickPipes always with the default TICK_RATE_MS, Jump
always with JUMP_VELOCITY, Gravity, and CreatePipe with schedule derived
gap values. -/
def isProgActionB : Action → Bool
  | Action.tick dt => decide (dt = Constants.TICK_RATE_MS)
  | Action.jump v => decide (v = Constants.JUMP_VELOCITY)
  | Action.gravity => true
  | Action.createPipe _ _ => true
  | Action.tickPipes dt => decide (dt = Constants.TICK_RATE_MS)

/-- States reachable in a run: the initial state, closed under the reducer
applied to the action instances the program constructs. -/
inductive Reachable : State → Prop where
  | init (t0 : ℚ) :
      Reachable (initialState t0 Viewport.CANVAS_WIDTH
        Viewport.CANVAS_HEIGHT)
  | step {s : State} {a : Action} :
      Reachable s → isProgActionB a = true → Reachable (reduceState s a)

/-- The whitespace characters removed by the JavaScript trim method, on the
characters relevant to schedule text. -/
def isWs (c : Char) : Bool := c = ' ' || c = '\t' || c = '\n' || c = '\r'

/-- The JavaScript trim method on a character list: drop whitespace from
both ends. -/
def jsTrimList (l : List Char) : List Char :=
  ((l.dropWhile isWs).reverse.dropWhile isWs).reverse

/-- The JavaScript split method with a one character separator, on a
character list: the empty string splits to one empty field. -/
def jsSplitList (sep : Char) : List Char → List (List Char)
  | [] => [[]]
  | c :: rest =>
    match jsSplitList sep rest with
    | [] => [[]]
    | h :: t => if c = sep then [] :: h :: t else (c :: h) :: t

/-- Value of a digit string read in base ten. -/
def natOfDigits (l : List Char) : ℕ :=
  l.foldl (fun n c => 10 * n + (c.toNat - 48)) 0

/-- Unsigned decimal literal as read by the JavaScript Number conversion:
digits with an optional single decimal point; none models NaN. -/
def parseUnsigned (l : List Char) : Option ℚ :=
  let intPart := l.takeWhile Char.isDigit
  match l.dropWhile Char.isDigit with
  | [] => if intPart.isEmpty then none else some (natOfDigits intPart : ℚ)
  | '.' :: frac =>
    if frac.all Char.isDigit && !(intPart.isEmpty && frac.isEmpty) then
      some ((natOfDigits intPart : ℚ) +
        (natOfDigits frac : ℚ) / (10 : ℚ) ^ frac.length)
    else none
  | _ => none

/-- Model of the JavaScript Number conversion on the string domain of the
schedule file: trimmed empty text is 0, an optional sign precedes a decimal
literal, anything else is NaN (modelled as none). -/
def jsNumberOfChars (cs : List Char) : Option ℚ :=
  let t := jsTrimList cs
  if t.isEmpty then some 0
  else
    match t with
    | '-' :: rest => (parseUnsigned rest).map Neg.neg
    | '+' :: rest => parseUnsigned rest
    | _ => parseUnsigned t

/-- Number conversion of an optional field: a missing field is undefined
and Number of undefined is NaN. -/
def jsNumberField : Option (List Char) → Option ℚ
  | none => none
  | some cs => jsNumberOfChars cs

/-- One schedule row (type.ts CsvRow); none in a field models NaN. -/
structure CsvRow where
  gap : Option ℚ
  height : Option ℚ
  delay : Option ℚ
  deriving DecidableEq

/-- One line of the schedule file turned into a row by parseCsv of main.ts:
split on commas, destructure the first three fields, convert each with
Number. -/
def rowOfLine (line : List Char) : CsvRow :=
  let fields := jsSplitList ',' line
  { gap := jsNumberField fields[0]?,
    height := jsNumberField fields[1]?,
    delay := jsNumberField fields[2]? }

/-- The schedule parser of main.ts (parseCsv): trim the text, split on
newlines, map every line to a row. -/
def parseCsv (text : String) : List CsvRow :=
  (jsSplitList '\n' (jsTrimList text.data)).map rowOfLine

/-- A run prefix used as a witness trace: spawn one pipe whose gap contains
the body, scroll it behind the body with 128 TickPipes applications (the
win is recorded on the last one), let the body fall onto the bottom pipe
rectangle with 14 Gravity applications (first life lost), then advance time
with 67 Tick applications (second life lost when the invincibility window
expires at time 1020). -/
def actsC2 : List Action :=
  Action.createPipe 200 300 ::
    (List.replicate 128 (Action.tickPipes 30) ++
      (List.replicate 14 Action.gravity ++
        List.replicate 67 (Action.tick 30)))

/-- The state reached by the actsC2 trace: one life left, still overlapping
the bottom pipe rectangle, invincible until 2020, winAt stamped at 0 and
won recorded. -/
def sC2a : State :=
  actsC2.foldl reduceState
    (initialState 0 Viewport.CANVAS_WIDTH Viewport.CANVAS_HEIGHT)

/-- One further program tick from sC2a: time reaches 2040, the
invincibility window has expired, the hit is fatal. -/
def sC2b : State := reduceState sC2a (Action.tick 30)

/-- A run prefix reaching a state where the post win delay has elapsed but
no TickPipes application has happened since: spawn one pipe, resolve it
with 128 TickPipes applications (winAt stamped at time 0), then advance
time to 2010 with 67 Tick applications. -/
def actsC3 : List Action :=
  Action.createPipe 200 300 ::
    (List.replicate 128 (Action.tickPipes 30) ++
      List.replicate 67 (Action.tick 30))

/-- The state reached by the actsC3 trace. -/
def sC3 : State :=
  actsC3.foldl reduceState
    (initialState 0 Viewport.CANVAS_WIDTH Viewport.CANVAS_HEIGHT)

/-- Witness state for the amended stickiness claim: a finished winning
state. -/
def sW2 : State :=
  { gameEnd := true, time := 100, pipes := [], exit := [],
    birb := createBirb "birb" 180 200 0 2, objCount := 0, score := 1,
    invincibleUntil := none, won := some true, winAt := some 5 }

/-- Witness state for the non fatal collision claim: three lives, bottom
edge of the body below the canvas bottom. -/
def sW5 : State :=
  { gameEnd := false, time := 0, pipes := [], exit := [],
    birb := { id := "birb", birbX := 180, birbY := 396, birbVelocity := 0,
              birbLive := 3, createTime := 0 },
    objCount := 0, score := 0, invincibleUntil := none, won := none,
    winAt := none }

/-- Witness state for the fatal collision claim: one life, bottom edge of
the body below the canvas bottom. -/
def sW6 : State :=
  { gameEnd := false, time := 0, pipes := [], exit := [],
    birb := { id := "birb", birbX := 180, birbY := 396, birbVelocity := 7,
              birbLive := 1, createTime := 0 },
    objCount := 0, score := 0, invincibleUntil := none, won := none,
    winAt := none }

/-- A passed pipe still on screen, used by the win sequencing witness. -/
def pipeW7 : Pipe :=
  { id := "pipe-1", x := 300, gapY := 200, gapH := 100, createTime := 0,
    passed := true }

/-- Witness state for the win sequencing claim: one passed pipe survives
and no win has been recorded. -/
def sW7a : State :=
  { gameEnd := false, time := 5, pipes := [pipeW7], exit := [],
    birb := createBirb "birb" 180 200 0 3, objCount := 1, score := 1,
    invincibleUntil := none, won := none, winAt := none }

/-- Witness state for the win sequencing claim: the win was recorded at
time 0 and the current time is 2000. -/
def sW7b : State := { sW7a with time := 2000, won := some true, winAt := some 0 }

/-- Witness state for the invincibility freeze claim: a hit condition
holds, but the body is invincible until time 1. -/
def sW9 : State :=
  { gameEnd := false, time := 0, pipes := [], exit := [],
    birb := { id := "birb", birbX := 180, birbY := 396, birbVelocity := 3,
              birbLive := 3, createTime := 0 },
    objCount := 0, score := 0, invincibleUntil := some 1, won := none,
    winAt := none }

/-- Witness state for the determinism and bounce claim: a hit at time
500. -/
def sW10 : State :=
  { gameEnd := false, time := 500, pipes := [], exit := [],
    birb := { id := "birb", birbX := 180, birbY := 390, birbVelocity := 0,
              birbLive := 3, createTime := 0 },
    objCount := 0, score := 0, invincibleUntil := none, won := none,
    winAt := none }

/-!
Helper lemmas.
-/

/-- The scoring reduce of TickPipes, run from any accumulator, appends the
per pipe updates and counts the pipes that score now. -/
theorem scoreFold_go (dx bX bY : ℚ) (ok : Bool) (l : List Pipe) :
    ∀ (ps : List Pipe) (g : ℚ),
      l.foldl (scoreAccum dx bX bY ok) (ps, g) =
        (ps ++ l.map (scoreStep dx bX bY ok),
         g + (l.countP (scoredNowP dx bX bY ok) : ℚ)) := by
  induction l with
  | nil => intro ps g; simp
  | cons p tl ih =>
    intro ps g
    rw [List.foldl_cons]
    show tl.foldl (scoreAccum dx bX bY ok) (scoreAccum dx bX bY ok (ps, g) p) = _
    rw [scoreAccum, ih]
    cases h : scoredNowP dx bX bY ok p
    · simp [h, List.countP_cons]
    · simp [h, List.countP_cons]
      ring

/-- The scoring reduce of TickPipes equals a map plus a count. -/
theorem scoreFold_eq (dx bX bY : ℚ) (ok : Bool) (l : List Pipe) :
    scoreFold dx bX bY ok l =
      (l.map (scoreStep dx bX bY ok),
       (l.countP (scoredNowP dx bX bY ok) : ℚ)) := by
  simpa [scoreFold] using scoreFold_go dx bX bY ok l [] 0

/-- Integer division of naturals, cast to the rationals, is below the
rational quotient. -/
theorem natDivCast_le (k d : ℕ) (hd : 0 < d) :
    ((k / d : ℕ) : ℚ) ≤ (k : ℚ) / (d : ℚ) := by
  have hd' : (0 : ℚ) < (d : ℚ) := by exact_mod_cast hd
  rw [le_div_iff₀ hd']
  exact_mod_cast Nat.div_mul_le_self k d

/-- The rational quotient of naturals is below their integer division plus
one. -/
theorem lt_natDivCast_add_one (k d : ℕ) (hd : 0 < d) :
    (k : ℚ) / (d : ℚ) < ((k / d : ℕ) : ℚ) + 1 := by
  have hd' : (0 : ℚ) < (d : ℚ) := by exact_mod_cast hd
  have hnat : k < (k / d + 1) * d := by
    calc k = d * (k / d) + k % d := (Nat.div_add_mod _ _).symm
      _ < d * (k / d) + d := Nat.add_lt_add_left (Nat.mod_lt _ hd) _
      _ = (k / d + 1) * d := by ring
  rw [div_lt_iff₀ hd']
  exact_mod_cast hnat

/-- The representation of a non negative rational as a quotient of its
numerator absolute value by its denominator. -/
theorem natAbs_div_den (q : ℚ) (hq : 0 ≤ q) :
    ((q.num.natAbs : ℕ) : ℚ) / (q.den : ℚ) = q := by
  have hnum : 0 ≤ q.num := Rat.num_nonneg.mpr hq
  have h0 : (q.num.natAbs : ℤ) = q.num := Int.natAbs_of_nonneg hnum
  have habs : ((q.num.natAbs : ℕ) : ℚ) = ((q.num : ℤ) : ℚ) := by
    conv_rhs => rw [← h0]
    rw [Int.cast_natCast]
  rw [habs]
  exact Rat.num_div_den q

/-- Truncation toward zero is below a non negative rational. -/
theorem ratTrunc_le_self (q : ℚ) (hq : 0 ≤ q) : (ratTrunc q : ℚ) ≤ q := by
  have hnum : 0 ≤ q.num := Rat.num_nonneg.mpr hq
  have h1 := natDivCast_le q.num.natAbs q.den q.den_pos
  rw [natAbs_div_den q hq] at h1
  rw [ratTrunc, if_pos hnum]
  exact_mod_cast h1

/-- A non negative rational is below its truncation plus one. -/
theorem lt_ratTrunc_add_one (q : ℚ) (hq : 0 ≤ q) :
    q < (ratTrunc q : ℚ) + 1 := by
  have hnum : 0 ≤ q.num := Rat.num_nonneg.mpr hq
  have h1 := lt_natDivCast_add_one q.num.natAbs q.den q.den_pos
  rw [natAbs_div_den q hq] at h1
  rw [ratTrunc, if_pos hnum]
  exact_mod_cast h1

/-- The JavaScript remainder of a non negative number by a positive number
is non negative. -/
theorem jsMod_nonneg (a b : ℚ) (ha : 0 ≤ a) (hb : 0 < b) : 0 ≤ jsMod a b := by
  have hq : 0 ≤ a / b := div_nonneg ha hb.le
  have h1 := ratTrunc_le_self (a / b) hq
  have h2 : b * (ratTrunc (a / b) : ℚ) ≤ b * (a / b) :=
    mul_le_mul_of_nonneg_left h1 hb.le
  have h3 : b * (a / b) = a := by field_simp
  rw [jsMod]
  linarith

/-- The JavaScript remainder of a non negative number by a positive number
is strictly below the divisor. -/
theorem jsMod_lt (a b : ℚ) (ha : 0 ≤ a) (hb : 0 < b) : jsMod a b < b := by
  have hq : 0 ≤ a / b := div_nonneg ha hb.le
  have h1 := lt_ratTrunc_add_one (a / b) hq
  have h2 : b * (a / b) < b * ((ratTrunc (a / b) : ℚ) + 1) :=
    mul_lt_mul_of_pos_left h1 hb
  have h3 : b * (a / b) = a := by field_simp
  rw [jsMod]
  nlinarith

/-- The bounce magnitude lies in the configured interval for non negative
times. -/
theorem bounceMagnitude_mem (t : ℚ) (ht : 0 ≤ t) :
    Constants.BOUNCE_MIN ≤ bounceMagnitude t ∧
      bounceMagnitude t ≤ Constants.BOUNCE_MAX := by
  have h1 := jsMod_nonneg t 1000 ht (by norm_num)
  have h2 := jsMod_lt t 1000 ht (by norm_num)
  rw [bounceMagnitude, Constants.BOUNCE_MIN, Constants.BOUNCE_MAX]
  constructor <;> nlinarith

/-- The end after win test only depends on winAt and time. -/
theorem winDelayElapsed_congr {r s : State} (h1 : r.winAt = s.winAt)
    (h2 : r.time = s.time) : winDelayElapsed r = winDelayElapsed s := by
  rw [winDelayElapsed, winDelayElapsed, h1, h2]

/-- Characterisation of the end after win test. -/
theorem winDelayElapsed_iff (s : State) :
    winDelayElapsed s = true ↔
      ∃ w, s.winAt = some w ∧ Constants.WIN_DELAY_MS ≤ s.time - w := by
  rw [winDelayElapsed]
  cases h : s.winAt with
  | none => simp [h]
  | some w => simp [h, ge_iff_le]

/-- Folding a list of program actions through the reducer preserves
reachability. -/
theorem reachable_foldl (acts : List Action) :
    ∀ {s : State}, Reachable s → acts.all isProgActionB = true →
      Reachable (acts.foldl reduceState s) := by
  induction acts with
  | nil => intro s hs _; simpa using hs
  | cons a tl ih =>
    intro s hs h
    rw [List.all_cons, Bool.and_eq_true] at h
    rw [List.foldl_cons]
    exact ih (Reachable.step hs h.1) h.2

/-- Collision resolution can only keep the game end flag or raise it. -/
theorem handleCollisions_gameEnd {t : State} (h : t.gameEnd = true) :
    (handleCollisions t).gameEnd = true := by
  rw [handleCollisions]
  split_ifs <;> simp [h]

/-- Collision resolution keeps a recorded winAt, except on a fatal hit
where it clears winAt, sets won to false, zeroes the lives and ends the
game. -/
theorem handleCollisions_winAt {t : State} {w : ℚ} (h : t.winAt = some w) :
    (handleCollisions t).winAt = some w ∨
      ((handleCollisions t).birb.birbLive = 0 ∧
        (handleCollisions t).winAt = none ∧
        (handleCollisions t).won = some false ∧
        (handleCollisions t).gameEnd = true) := by
  rw [handleCollisions]
  split_ifs with h1 h2 h3
  · exact Or.inl h
  · exact Or.inl h
  · right
    simp
  · left
    simp [h3, h]

/-- Collision resolution keeps a recorded win, except on a fatal hit where
it records a loss. -/
theorem handleCollisions_won {t : State} (h : t.won = some true) :
    (handleCollisions t).won = some true ∨
      ((handleCollisions t).birb.birbLive = 0 ∧
        (handleCollisions t).won = some false) := by
  rw [handleCollisions]
  split_ifs with h1 h2 h3
  · exact Or.inl h
  · exact Or.inl h
  · right
    simp
  · left
    simp [h3, h]

/-- Every action of the action set keeps the game end flag raised. -/
theorem apply_gameEnd {s : State} (a : Action) (h : s.gameEnd = true) :
    (a.apply s).gameEnd = true := by
  cases a <;>
    simp [Action.apply, tickApply, jumpApply, gravityApply,
      createPipeApply, tickPipesApply, h]

/-- Every action of the action set keeps a recorded winAt unchanged. -/
theorem apply_winAt {s : State} {w : ℚ} (a : Action)
    (h : s.winAt = some w) : (a.apply s).winAt = some w := by
  cases a <;>
    simp [Action.apply, tickApply, jumpApply, gravityApply,
      createPipeApply, tickPipesApply, winStartedB, h]

/-- Every action of the action set keeps a recorded win. -/
theorem apply_won {s : State} (a : Action) (h : s.won = some true) :
    (a.apply s).won = some true := by
  cases a with
  | tickPipes dt =>
    rw [Action.apply, tickPipesApply]
    split <;> simp [h]
  | _ =>
    simp [Action.apply, tickApply, jumpApply, gravityApply,
      createPipeApply, h]

/-- Every action of the action set keeps the time and the body fields,
except Tick which only advances the time and TickPipes which touches
neither. -/
theorem apply_time_winAt_lives (s : State) (a : Action) :
    (a.apply s).birb.birbLive = s.birb.birbLive := by
  cases a <;>
    simp [Action.apply, tickApply, jumpApply, gravityApply,
      createPipeApply, tickPipesApply]

/-- The run invariant of the engine: the lives are non negative, the game
has ended only on death or after the post win delay, and it has surely
ended on death. -/
def InvP (s : State) : Prop :=
  0 ≤ s.birb.birbLive ∧
    (s.gameEnd = true →
      s.birb.birbLive = 0 ∨ winDelayElapsed s = true) ∧
    (s.birb.birbLive = 0 → s.gameEnd = true)

/-- Collision resolution preserves the run invariant. -/
theorem invP_handleCollisions {t : State} (h : InvP t) :
    InvP (handleCollisions t) := by
  obtain ⟨hL, hG, hZ⟩ := h
  rw [InvP, handleCollisions]
  split_ifs with h1 h2 h3
  · exact ⟨hL, hG, hZ⟩
  · exact ⟨hL, hG, hZ⟩
  · refine ⟨le_refl 0, fun _ => Or.inl rfl, fun _ => rfl⟩
  · refine ⟨le_max_left 0 _, ?_, ?_⟩
    · intro hge
      simp only [h3, decide_eq_true_eq, if_neg] at hge ⊢
      have hge' : t.gameEnd = true := by
        revert hge
        cases t.gameEnd <;> simp [h3]
      rcases hG hge' with h0 | he
      · exfalso
        apply h3
        rw [h0]
        norm_num
      · right
        rw [winDelayElapsed_iff] at he ⊢
        obtain ⟨w, hw, hle⟩ := he
        exact ⟨w, hw, hle⟩
    · intro h0
      exact absurd h0 h3

/-- Applying any program action preserves the run invariant. -/
theorem invP_apply {s : State} {a : Action} (hp : isProgActionB a = true)
    (h : InvP s) : InvP (a.apply s) := by
  obtain ⟨hL, hG, hZ⟩ := h
  cases a with
  | tick dt =>
    have hdt : dt = Constants.TICK_RATE_MS := by
      simpa [isProgActionB] using hp
    subst hdt
    refine ⟨hL, ?_, hZ⟩
    intro hge
    simp only [Action.apply, tickApply] at hge ⊢
    rcases hG hge with h0 | he
    · exact Or.inl h0
    · right
      rw [winDelayElapsed_iff] at he ⊢
      obtain ⟨w, hw, hle⟩ := he
      refine ⟨w, hw, ?_⟩
      simp only
      rw [Constants.TICK_RATE_MS]
      linarith
  | jump v =>
    refine ⟨hL, ?_, hZ⟩
    intro hge
    simp only [Action.apply, jumpApply] at hge ⊢
    rcases hG hge with h0 | he
    · exact Or.inl h0
    · exact Or.inr he
  | gravity =>
    refine ⟨hL, ?_, hZ⟩
    intro hge
    simp only [Action.apply, gravityApply] at hge ⊢
    rcases hG hge with h0 | he
    · exact Or.inl h0
    · exact Or.inr he
  | createPipe gY gH =>
    refine ⟨hL, ?_, hZ⟩
    intro hge
    simp only [Action.apply, createPipeApply] at hge ⊢
    rcases hG hge with h0 | he
    · exact Or.inl h0
    · exact Or.inr he
  | tickPipes dt =>
    refine ⟨hL, ?_, ?_⟩
    · intro hge
      simp only [Action.apply, tickPipesApply, Bool.or_eq_true] at hge
      rcases hge with hge' | he
      · rcases hG hge' with h0 | he
        · exact Or.inl h0
        · right
          rw [winDelayElapsed_iff] at he
          obtain ⟨w, hw, hle⟩ := he
          rw [winDelayElapsed_iff]
          refine ⟨w, ?_, hle⟩
          simp [Action.apply, tickPipesApply, winStartedB, hw]
      · right
        rw [winDelayElapsed_iff] at he
        obtain ⟨w, hw, hle⟩ := he
        rw [winDelayElapsed_iff]
        refine ⟨w, ?_, hle⟩
        simp [Action.apply, tickPipesApply, winStartedB, hw]
    · intro h0
      simp only [Action.apply, tickPipesApply] at h0 ⊢
      rw [hZ h0]
      simp

/-- The initial state satisfies the run invariant. -/
theorem invP_initial (t0 canvasW canvasH : ℚ) :
    InvP (initialState t0 canvasW canvasH) := by
  refine ⟨by norm_num [initialState, createBirb, Birb.BIRB_LIVES], ?_, ?_⟩
  · intro h
    simp [initialState] at h
  · intro h
    simp [initialState, createBirb, Birb.BIRB_LIVES] at h

/-- Every reachable state satisfies the run invariant. -/
theorem invP_reachable {s : State} (hs : Reachable s) : InvP s := by
  induction hs with
  | init t0 => exact invP_initial t0 _ _
  | step h hp ih => exact invP_handleCollisions (invP_apply hp ih)

/-!
Claim theorems.
-/

/-- C8: one Gravity application sets the velocity to
min(velocity + gravityAccel, maxFallRate), moves y by the new velocity and
changes no other field; and after n + 1 consecutive Gravity applications
the velocity never exceeds maxFallRate. -/
theorem claim_C8 :
    (∀ s : State, gravityApply s =
      { s with birb := { s.birb with
          birbVelocity := min (s.birb.birbVelocity + Constants.GRAVITY)
            Constants.MAX_FALL_RATE,
          birbY := s.birb.birbY +
            min (s.birb.birbVelocity + Constants.GRAVITY)
              Constants.MAX_FALL_RATE } }) ∧
    (∀ (s : State) (n : ℕ),
      (gravityApply^[n + 1] s).birb.birbVelocity ≤
        Constants.MAX_FALL_RATE) := by
  constructor
  · intro s
    rfl
  · intro s n
    rw [Function.iterate_succ_apply']
    exact min_le_right _ _

/-- C9: while the state is invincible (invincibleUntil is set and time is
strictly before it), collision resolution returns the state unchanged. -/
theorem claim_C9 (s : State) (u : ℚ) (h : s.invincibleUntil = some u)
    (ht : s.time < u) : handleCollisions s = s := by
  have hinv : isInvincible s = true := by simp [isInvincible, h, ht]
  rw [handleCollisions, if_pos hinv]

/-- C9 witness: a concrete invincible state with a hit condition present is
returned unchanged. -/
theorem claim_C9_witness : handleCollisions sW9 = sW9 :=
  claim_C9 sW9 1 rfl (by decide)

/-- C5: a non fatal hit (at least two lives, a hit condition holds, not
invincible, non negative time) decrements the lives by exactly one, sets
the velocity to a bounce magnitude inside the configured interval, directed
down on a top side hit and up otherwise, moves y by that velocity clamped
into the legal band, and opens an invincibility window. -/
theorem claim_C5 (s : State) (hHit : anyHit s = true)
    (hInv : isInvincible s = false) (hLives : 2 ≤ s.birb.birbLive)
    (hTime : 0 ≤ s.time) :
    (handleCollisions s).birb.birbLive = s.birb.birbLive - 1 ∧
    Constants.BOUNCE_MIN ≤ bounceMagnitude s.time ∧
    bounceMagnitude s.time ≤ Constants.BOUNCE_MAX ∧
    ((hitTopBound s || hitTopPipe s) = true →
      (handleCollisions s).birb.birbVelocity = bounceMagnitude s.time) ∧
    ((hitTopBound s || hitTopPipe s) = false →
      (handleCollisions s).birb.birbVelocity = -(bounceMagnitude s.time)) ∧
    (handleCollisions s).birb.birbY =
      max (Birb.HEIGHT / 2)
        (min (Viewport.CANVAS_HEIGHT - Birb.HEIGHT / 2)
          (s.birb.birbY + (handleCollisions s).birb.birbVelocity)) ∧
    (handleCollisions s).invincibleUntil =
      some (s.time + Constants.INVINCIBLE_MS) := by
  have hmax : max 0 (s.birb.birbLive - 1) = s.birb.birbLive - 1 :=
    max_eq_right (by linarith)
  have hne : ¬(max 0 (s.birb.birbLive - 1) = 0) := by
    rw [hmax]
    intro h0
    linarith
  have hbm := bounceMagnitude_mem s.time hTime
  rw [handleCollisions, if_neg (by simp [hInv]), if_neg (by simp [hHit]),
    if_neg hne]
  refine ⟨hmax, hbm.1, hbm.2, ?_, ?_, rfl, rfl⟩
  · intro htop
    show bounceVy s = bounceMagnitude s.time
    rw [bounceVy, if_pos htop]
  · intro htop
    show bounceVy s = -(bounceMagnitude s.time)
    rw [bounceVy, if_neg (by simp [htop])]

/-- C5 witness: the concrete non fatal bottom boundary hit of sW5. -/
theorem claim_C5_witness :
    (handleCollisions sW5).birb.birbLive = sW5.birb.birbLive - 1 ∧
    (handleCollisions sW5).invincibleUntil =
      some (sW5.time + Constants.INVINCIBLE_MS) ∧
    ((hitTopBound sW5 || hitTopPipe sW5) = false →
      (handleCollisions sW5).birb.birbVelocity =
        -(bounceMagnitude sW5.time)) :=
  ⟨(claim_C5 sW5 (by decide) (by decide) (by decide) (by decide)).1,
   (claim_C5 sW5 (by decide) (by decide) (by decide)
     (by decide)).2.2.2.2.2.2,
   (claim_C5 sW5 (by decide) (by decide) (by decide) (by decide)).2.2.2.2.1⟩

/-- C6: a fatal hit (exactly one life, a hit condition holds, not
invincible) zeroes the lives and the velocity, ends the game, records a
loss, clears winAt, and leaves the position unchanged. -/
theorem claim_C6 (s : State) (hHit : anyHit s = true)
    (hInv : isInvincible s = false) (hLives : s.birb.birbLive = 1) :
    (handleCollisions s).birb.birbLive = 0 ∧
    (handleCollisions s).birb.birbVelocity = 0 ∧
    (handleCollisions s).gameEnd = true ∧
    (handleCollisions s).won = some false ∧
    (handleCollisions s).winAt = none ∧
    (handleCollisions s).birb.birbX = s.birb.birbX ∧
    (handleCollisions s).birb.birbY = s.birb.birbY := by
  have h0 : max 0 (s.birb.birbLive - 1) = 0 := by
    rw [hLives]
    norm_num
  rw [handleCollisions, if_neg (by simp [hInv]), if_neg (by simp [hHit]),
    if_pos h0]
  exact ⟨rfl, rfl, rfl, rfl, rfl, rfl, rfl⟩

/-- C6 witness: the concrete fatal bottom boundary hit of sW6. -/
theorem claim_C6_witness :
    (handleCollisions sW6).birb.birbLive = 0 ∧
    (handleCollisions sW6).gameEnd = true ∧
    (handleCollisions sW6).winAt = none ∧
    (handleCollisions sW6).birb.birbY = sW6.birb.birbY :=
  ⟨(claim_C6 sW6 (by decide) (by decide) (by decide)).1,
   (claim_C6 sW6 (by decide) (by decide) (by decide)).2.2.1,
   (claim_C6 sW6 (by decide) (by decide) (by decide)).2.2.2.2.1,
   (claim_C6 sW6 (by decide) (by decide) (by decide)).2.2.2.2.2.2⟩

/-- C1: one TickPipes application maps every surviving moved pipe through
the scoring step and credits one point per pipe that scores now; the
scoring condition holds exactly when the pipe is not yet passed, its right
edge crosses the body x on this tick, the body y is strictly inside the
gap, and the body is not invincible; the passed flag of each pipe is the
old flag or the scoring condition, so it rises false to true at most once
and each pipe is counted at most once. -/
theorem claim_C1 (s : State) (dtMs : ℚ) :
    (tickPipesApply dtMs s).pipes =
      (keptPipes s (pipeDx dtMs)).map
        (scoreStep (pipeDx dtMs) s.birb.birbX s.birb.birbY (okToScore s)) ∧
    (tickPipesApply dtMs s).score =
      s.score + ((keptPipes s (pipeDx dtMs)).countP
        (scoredNowP (pipeDx dtMs) s.birb.birbX s.birb.birbY
          (okToScore s)) : ℚ) ∧
    okToScore s = !isInvincible s ∧
    ∀ p : Pipe,
      (scoredNowP (pipeDx dtMs) s.birb.birbX s.birb.birbY (okToScore s) p =
          true ↔
        p.passed = false ∧
          crossedNow (pipeDx dtMs) s.birb.birbX p = true ∧
          insideGap s.birb.birbY p = true ∧ okToScore s = true) ∧
      (scoreStep (pipeDx dtMs) s.birb.birbX s.birb.birbY (okToScore s)
          p).passed =
        (p.passed ||
          scoredNowP (pipeDx dtMs) s.birb.birbX s.birb.birbY (okToScore s)
            p) := by
  refine ⟨?_, ?_, ?_, ?_⟩
  · simp only [tickPipesApply, updatedPipes, scoreFold_eq]
  · simp only [tickPipesApply, gainedScore, scoreFold_eq]
  · cases h : s.invincibleUntil with
    | none => simp [okToScore, isInvincible, h]
    | some u =>
      simp only [okToScore, isInvincible, h, ge_iff_le, ← not_lt,
        decide_not]
  · intro p
    constructor
    · rw [scoredNowP]
      simp [Bool.and_eq_true, Bool.not_eq_true', and_assoc]
    · cases h : scoredNowP (pipeDx dtMs) s.birb.birbX s.birb.birbY
        (okToScore s) p <;> simp [scoreStep, h]

/-- C7: one TickPipes application stamps winAt with the current time and
records the win exactly when at least one pipe survives, every surviving
pipe is resolved, and no win was recorded yet; an already recorded winAt is
never restamped; and once winAt is set and the win delay has elapsed the
application sets gameEnd. -/
theorem claim_C7 (s : State) (dtMs : ℚ) :
    (updatedPipes s dtMs ≠ [] →
      (∀ p ∈ updatedPipes s dtMs,
        resolvedB (s.birb.birbX + Birb.WIDTH / 2) p = true) →
      s.winAt = none →
      (tickPipesApply dtMs s).winAt = some s.time ∧
        (tickPipesApply dtMs s).won = some true) ∧
    (∀ w, s.winAt = some w →
      (tickPipesApply dtMs s).winAt = some w ∧
        (tickPipesApply dtMs s).won = s.won) ∧
    (∀ w, s.winAt = some w → Constants.WIN_DELAY_MS ≤ s.time - w →
      (tickPipesApply dtMs s).gameEnd = true) := by
  refine ⟨?_, ?_, ?_⟩
  · intro h1 h2 h3
    have hws : winStartedB s dtMs = true := by
      rw [winStartedB]
      simp [List.length_pos.mpr h1, List.all_eq_true.mpr h2, h3]
    constructor <;> simp [tickPipesApply, hws]
  · intro w hw
    have hws : winStartedB s dtMs = false := by
      rw [winStartedB]
      simp [hw]
    constructor <;> simp [tickPipesApply, hws, hw]
  · intro w hw hle
    have hde : winDelayElapsed s = true := by
      rw [winDelayElapsed_iff]
      exact ⟨w, hw, hle⟩
    simp [tickPipesApply, hde]

/-- C7 witness: with one surviving passed pipe and winAt unset the win is
stamped at the current time; with winAt already set it is kept and, the
delay having elapsed, the game ends. -/
theorem claim_C7_witness :
    ((tickPipesApply 30 sW7a).winAt = some sW7a.time ∧
      (tickPipesApply 30 sW7a).won = some true) ∧
    ((tickPipesApply 30 sW7b).winAt = some 0 ∧
      (tickPipesApply 30 sW7b).won = sW7b.won) ∧
    (tickPipesApply 30 sW7b).gameEnd = true :=
  ⟨(claim_C7 sW7a 30).1 (by decide) (by decide) rfl,
   (claim_C7 sW7b 30).2.1 0 rfl,
   (claim_C7 sW7b 30).2.2 0 rfl (by decide)⟩

/-- C10: the reducer is a pure function (equal inputs give equal outputs);
the bounce magnitude is the stated pure function of the state time, it is
applied as the velocity with one of the two signs on every non fatal hit,
and for non negative times it lies inside the configured interval. -/
theorem claim_C10 :
    (∀ (s1 s2 : State) (a : Action), s1 = s2 →
      reduceState s1 a = reduceState s2 a) ∧
    (∀ t : ℚ, bounceMagnitude t =
      Constants.BOUNCE_MIN +
        jsMod t 1000 / 1000 *
          (Constants.BOUNCE_MAX - Constants.BOUNCE_MIN)) ∧
    (∀ s : State, anyHit s = true → isInvincible s = false →
      ¬(max 0 (s.birb.birbLive - 1) = 0) →
      (handleCollisions s).birb.birbVelocity = bounceMagnitude s.time ∨
        (handleCollisions s).birb.birbVelocity =
          -(bounceMagnitude s.time)) ∧
    (∀ t : ℚ, 0 ≤ t →
      Constants.BOUNCE_MIN ≤ bounceMagnitude t ∧
        bounceMagnitude t ≤ Constants.BOUNCE_MAX) := by
  refine ⟨?_, ?_, ?_, ?_⟩
  · intro s1 s2 a h
    rw [h]
  · intro t
    rfl
  · intro s hHit hInv hne
    rw [handleCollisions, if_neg (by simp [hInv]), if_neg (by simp [hHit]),
      if_neg hne]
    show bounceVy s = _ ∨ bounceVy s = _
    rw [bounceVy]
    split_ifs
    · exact Or.inl rfl
    · exact Or.inr rfl
  · exact bounceMagnitude_mem

/-- C10 witness: the determinism, sign and interval facts instantiated at
the concrete hit state sW10 and at time 500. -/
theorem claim_C10_witness :
    reduceState sW10 Action.gravity = reduceState sW10 Action.gravity ∧
    ((handleCollisions sW10).birb.birbVelocity =
        bounceMagnitude sW10.time ∨
      (handleCollisions sW10).birb.birbVelocity =
        -(bounceMagnitude sW10.time)) ∧
    Constants.BOUNCE_MIN ≤ bounceMagnitude 500 ∧
      bounceMagnitude 500 ≤ Constants.BOUNCE_MAX :=
  ⟨claim_C10.1 sW10 sW10 Action.gravity rfl,
   claim_C10.2.2.1 sW10 (by decide) (by decide) (by decide),
   claim_C10.2.2.2 500 (by norm_num)⟩

set_option maxRecDepth 400000 in
set_option maxHeartbeats 2000000 in
/-- C2 counterexample: a reachable state with winAt recorded and won true
whose next program transition (one more Tick through the reducer) clears
winAt and flips won to false, because the hit at time 2040 is fatal.  So
winAt is not sticky on the code as the claim states. -/
theorem claim_C2_counterexample :
    Reachable sC2a ∧ Reachable sC2b ∧
    sC2b = reduceState sC2a (Action.tick 30) ∧
    (sC2a.winAt = some 0 ∧ sC2a.won = some true ∧ sC2a.gameEnd = false) ∧
    (sC2b.winAt = none ∧ sC2b.won = some false ∧ sC2b.gameEnd = true) := by
  have hr : Reachable sC2a :=
    reachable_foldl actsC2 (Reachable.init 0) (by decide)
  exact ⟨hr, Reachable.step hr (by decide), rfl, by decide, by decide⟩

/-- C2 (amended): gameEnd is monotone under every reducer transition; a
recorded winAt is kept and a recorded win stays recorded, except that a
fatal collision (lives reaching zero on a hit outside invincibility) clears
winAt, sets won to false, and ends the game. -/
theorem claim_C2_amended (s : State) (a : Action) :
    (s.gameEnd = true → (reduceState s a).gameEnd = true) ∧
    (∀ w, s.winAt = some w →
      (reduceState s a).winAt = some w ∨
        ((reduceState s a).birb.birbLive = 0 ∧
          (reduceState s a).winAt = none ∧
          (reduceState s a).won = some false ∧
          (reduceState s a).gameEnd = true)) ∧
    (s.won = some true →
      (reduceState s a).won = some true ∨
        ((reduceState s a).birb.birbLive = 0 ∧
          (reduceState s a).won = some false)) := by
  refine ⟨?_, ?_, ?_⟩
  · intro h
    exact handleCollisions_gameEnd (apply_gameEnd a h)
  · intro w hw
    exact handleCollisions_winAt (apply_winAt a hw)
  · intro h
    exact handleCollisions_won (apply_won a h)

/-- C2 witness: the amended statement instantiated at a concrete winning
state and a Gravity transition. -/
theorem claim_C2_witness :
    (reduceState sW2 Action.gravity).gameEnd = true ∧
    ((reduceState sW2 Action.gravity).winAt = some 5 ∨
      ((reduceState sW2 Action.gravity).birb.birbLive = 0 ∧
        (reduceState sW2 Action.gravity).winAt = none ∧
        (reduceState sW2 Action.gravity).won = some false ∧
        (reduceState sW2 Action.gravity).gameEnd = true)) ∧
    ((reduceState sW2 Action.gravity).won = some true ∨
      ((reduceState sW2 Action.gravity).birb.birbLive = 0 ∧
        (reduceState sW2 Action.gravity).won = some false)) :=
  ⟨(claim_C2_amended sW2 Action.gravity).1 rfl,
   (claim_C2_amended sW2 Action.gravity).2.1 5 rfl,
   (claim_C2_amended sW2 Action.gravity).2.2 rfl⟩

set_option maxRecDepth 400000 in
set_option maxHeartbeats 2000000 in
/-- C3 counterexample: a reachable state in which the post win delay has
elapsed (winAt = 0 and time = 2010) and the lives are positive, yet
gameEnd is still false, because gameEnd is only stamped by the next
TickPipes application.  So the if and only if of the claim fails in the
right to left direction. -/
theorem claim_C3_counterexample :
    Reachable sC3 ∧ sC3.gameEnd = false ∧ winDelayElapsed sC3 = true ∧
      sC3.birb.birbLive = 3 := by
  refine ⟨reachable_foldl actsC3 (Reachable.init 0) (by decide), ?_⟩
  decide

/-- C3 (amended): in every reachable state the lives are non negative,
gameEnd implies that the lives are zero or the post win delay has elapsed,
and zero lives imply gameEnd; an elapsed post win delay sets gameEnd only
on the next TickPipes application, not immediately. -/
theorem claim_C3_amended (s : State) (hs : Reachable s) :
    0 ≤ s.birb.birbLive ∧
    (s.gameEnd = true →
      s.birb.birbLive = 0 ∨ winDelayElapsed s = true) ∧
    (s.birb.birbLive = 0 → s.gameEnd = true) :=
  invP_reachable hs

/-- C3 witness: the amended invariant instantiated at the initial state. -/
theorem claim_C3_witness :
    0 ≤ (initialState 0 Viewport.CANVAS_WIDTH
        Viewport.CANVAS_HEIGHT).birb.birbLive ∧
    ((initialState 0 Viewport.CANVAS_WIDTH
        Viewport.CANVAS_HEIGHT).gameEnd = true →
      (initialState 0 Viewport.CANVAS_WIDTH
          Viewport.CANVAS_HEIGHT).birb.birbLive = 0 ∨
        winDelayElapsed (initialState 0 Viewport.CANVAS_WIDTH
          Viewport.CANVAS_HEIGHT) = true) ∧
    ((initialState 0 Viewport.CANVAS_WIDTH
        Viewport.CANVAS_HEIGHT).birb.birbLive = 0 →
      (initialState 0 Viewport.CANVAS_WIDTH
        Viewport.CANVAS_HEIGHT).gameEnd = true) :=
  claim_C3_amended _ (Reachable.init 0)

/-- C4 counterexample: the malformed input of one line with two non
numeric fields does not surface any failure; the parser produces one
schedule row whose fields are all NaN. -/
theorem claim_C4_counterexample :
    parseCsv "a,b" = [{ gap := none, height := none, delay := none }] := by
  decide

/-- C4 (amended): the parser never fails and never rejects lines: every
input text yields exactly one row per line of the trimmed text, malformed
fields becoming NaN inside the row. -/
theorem claim_C4_amended (text : String) :
    (parseCsv text).length =
      (jsSplitList '\n' (jsTrimList text.data)).length := by
  rw [parseCsv, List.length_map]

end Flappy
